/-
  Verification of the Sheets request-builder module (sheets.js) of the
  order-management codelab.  The JavaScript builder functions are embedded
  shallowly: JS values that can be absent are modelled by `JSVal` with an
  `undefined` constructor, thrown exceptions by `Except String`, and the
  request payload object literals by Lean structures mirroring the Google
  Sheets API shapes that the code constructs.
-/

import Mathlib

set_option maxHeartbeats 1000000

/-- A JavaScript value as it occurs in an order record: a number, a string,
or `undefined` (a missing field).  No arithmetic is ever performed on
numbers by the builder code, so numbers are modelled as rationals. -/
inductive JSVal where
  | num (q : Rat)
  | str (s : String)
  | undefined
deriving DecidableEq

/-- Smallest exponent k with den dividing 10^k, if any below 64. -/
def decExponent (den : Nat) : Option Nat :=
  (List.range 64).find? (fun k => 10 ^ k % den == 0)

/-- Decimal rendering of a rational, matching JavaScript number-to-string
conversion on integers and finite decimal fractions (the only numbers the
builder ever stringifies). -/
def jsNumToString (q : Rat) : String :=
  match decExponent q.den with
  | some 0 => toString q.num
  | some (k + 1) =>
    let p : Nat := 10 ^ (k + 1)
    let scaled : Nat := q.num.natAbs * (p / q.den)
    let sign := if q.num < 0 then ("-") else ("")
    let fstr := toString (scaled % p)
    let pad := String.join (List.replicate ((k + 1) - fstr.length) ("0"))
    sign ++ toString (scaled / p) ++ (".") ++ pad ++ fstr
  | none => toString q.num ++ ("/") ++ toString q.den

/-- JavaScript `v.toString()`: succeeds on numbers and strings, throws a
TypeError on `undefined`. -/
def jsToString : JSVal → Except String String
  | JSVal.num q => Except.ok (jsNumToString q)
  | JSVal.str s => Except.ok s
  | JSVal.undefined => Except.error ("TypeError: cannot read toString of undefined")

/-- An order record as the builder sees it.  Every field holds a `JSVal`;
a missing field is `JSVal.undefined`, exactly as property access on a JS
object that lacks the property yields `undefined`. -/
structure Order where
  id : JSVal
  customerName : JSVal
  productCode : JSVal
  unitsOrdered : JSVal
  unitPrice : JSVal
  status : JSVal
deriving DecidableEq

/-- JS dynamic property access `order[field]` for the six known fields. -/
def Order.getField (o : Order) : String → JSVal
  | "id" => o.id
  | "customerName" => o.customerName
  | "productCode" => o.productCode
  | "unitsOrdered" => o.unitsOrdered
  | "unitPrice" => o.unitPrice
  | "status" => o.status
  | _ => JSVal.undefined

/-- One entry of the COLUMNS table: field name and display header. -/
structure Column where
  field : String
  header : String
deriving DecidableEq

/-- The fixed column-specification table COLUMNS of sheets.js. -/
def COLUMNS : List Column :=
  [ { field := ("id"), header := ("ID") },
    { field := ("customerName"), header := ("Customer Name") },
    { field := ("productCode"), header := ("Product Code") },
    { field := ("unitsOrdered"), header := ("Units Ordered") },
    { field := ("unitPrice"), header := ("Unit Price") },
    { field := ("status"), header := ("Status") } ]

/-- The value slot a cell literal fills: the code writes either a
`numberValue` key or a `stringValue` key, holding a raw JS value. -/
inductive UserValue where
  | numberValue (v : JSVal)
  | stringValue (v : JSVal)
deriving DecidableEq

/-- numberFormat object: type and pattern strings. -/
structure NumberFormat where
  type : String
  pattern : String
deriving DecidableEq

/-- textFormat object (only `bold` is ever set by the code). -/
structure TextFormat where
  bold : Bool
deriving DecidableEq

/-- userEnteredFormat object. -/
structure CellFormat where
  textFormat : Option TextFormat := none
  numberFormat : Option NumberFormat := none
deriving DecidableEq

/-- One allowed value of a ONE_OF_LIST condition. -/
structure ConditionValue where
  userEnteredValue : String
deriving DecidableEq

/-- A boolean condition of a data validation rule. -/
structure BooleanCondition where
  type : String
  values : List ConditionValue
deriving DecidableEq

/-- dataValidation object. -/
structure DataValidation where
  condition : BooleanCondition
  strict : Bool
  showCustomUi : Bool
deriving DecidableEq

/-- A grid range as the code writes it (absent bounds omitted). -/
structure GridRange where
  sheetId : Int
  startRowIndex : Option Nat := none
  startColumnIndex : Option Nat := none
  endRowIndex : Option Nat := none
  endColumnIndex : Option Nat := none
deriving DecidableEq

/-- A pivot row-grouping specification. -/
structure PivotGroup where
  sourceColumnOffset : Option Nat
  showTotals : Bool
  sortOrder : String
deriving DecidableEq

/-- A pivot value (aggregate) specification. -/
structure PivotValue where
  summarizeFunction : String
  sourceColumnOffset : Option Nat := none
  name : Option String := none
  formula : Option String := none
deriving DecidableEq

/-- pivotTable object. -/
structure PivotTable where
  source : GridRange
  rows : List PivotGroup
  values : List PivotValue
deriving DecidableEq

/-- CellData: the keys the builder code ever sets on a cell literal. -/
structure CellData where
  userEnteredValue : Option UserValue := none
  userEnteredFormat : Option CellFormat := none
  dataValidation : Option DataValidation := none
  pivotTable : Option PivotTable := none
deriving DecidableEq

/-- RowData: a row of cells. -/
structure RowData where
  values : List CellData
deriving DecidableEq

/-- A grid coordinate (start of an updateCells range). -/
structure GridCoordinate where
  sheetId : Int
  rowIndex : Nat
  columnIndex : Nat
deriving DecidableEq

/-- updateCells request payload. -/
structure UpdateCellsRequest where
  start : GridCoordinate
  rows : List RowData
  fields : String
deriving DecidableEq

/-- gridProperties object (absent keys omitted). -/
structure GridProperties where
  rowCount : Option Nat := none
  columnCount : Option Nat := none
  frozenRowCount : Option Nat := none
  hideGridlines : Option Bool := none
deriving DecidableEq

/-- Sheet properties object. -/
structure SheetProperties where
  sheetId : Option Int := none
  title : Option String := none
  gridProperties : Option GridProperties := none
deriving DecidableEq

/-- updateSheetProperties request payload. -/
structure UpdateSheetPropertiesRequest where
  properties : SheetProperties
  fields : String
deriving DecidableEq

/-- repeatCell request payload. -/
structure RepeatCellRequest where
  range : GridRange
  cell : CellData
  fields : String
deriving DecidableEq

/-- sourceRange wrapper of a chart domain or series. -/
structure ChartSourceRange where
  sources : List GridRange
deriving DecidableEq

/-- The object holding a sourceRange. -/
structure SourceRangeHolder where
  sourceRange : ChartSourceRange
deriving DecidableEq

/-- One domain of a basic chart. -/
structure BasicChartDomain where
  domain : SourceRangeHolder
deriving DecidableEq

/-- One series of a basic chart. -/
structure BasicChartSeries where
  series : SourceRangeHolder
deriving DecidableEq

/-- basicChart specification. -/
structure BasicChartSpec where
  chartType : String
  legendPosition : String
  domains : List BasicChartDomain
  series : List BasicChartSeries
deriving DecidableEq

/-- chart spec object. -/
structure ChartSpec where
  title : String
  basicChart : BasicChartSpec
deriving DecidableEq

/-- overlayPosition object. -/
structure OverlayPosition where
  anchorCell : GridCoordinate
  widthPixels : Nat
  heightPixels : Nat
deriving DecidableEq

/-- chart position object. -/
structure ChartPosition where
  overlayPosition : OverlayPosition
deriving DecidableEq

/-- An embedded chart. -/
structure EmbeddedChart where
  spec : ChartSpec
  position : ChartPosition
deriving DecidableEq

/-- addChart request payload. -/
structure AddChartRequest where
  chart : EmbeddedChart
deriving DecidableEq

/-- One sub-request of a spreadsheets.batchUpdate call, tagged by kind. -/
inductive Request where
  | updateCells (r : UpdateCellsRequest)
  | updateSheetProperties (r : UpdateSheetPropertiesRequest)
  | repeatCell (r : RepeatCellRequest)
  | addChart (r : AddChartRequest)
deriving DecidableEq

/-- True exactly on updateSheetProperties sub-requests. -/
def Request.isUpdateSheetProperties : Request → Bool
  | Request.updateSheetProperties _ => true
  | _ => false

/-- True exactly on updateCells sub-requests. -/
def Request.isUpdateCells : Request → Bool
  | Request.updateCells _ => true
  | _ => false

/-- Embedding of buildHeaderRowRequest (sheets.js lines 120-148): one row of
bold header strings written at row 0, column 0 of the given sheet. -/
def buildHeaderRowRequest (sheetId : Int) : Request :=
  Request.updateCells {
    start := { sheetId := sheetId, rowIndex := 0, columnIndex := 0 },
    rows := [ { values := COLUMNS.map (fun column =>
      { userEnteredValue := some (UserValue.stringValue (JSVal.str column.header)),
        userEnteredFormat := some { textFormat := some { bold := true } } }) } ],
    fields := ("userEnteredValue,userEnteredFormat.textFormat.bold") }

/-- JS Array.prototype.map with a callback that may throw: elements are
processed left to right and the first exception aborts the whole map. -/
def mapE {α β : Type} (f : α → Except String β) : List α → Except String (List β)
  | [] => Except.ok []
  | a :: as =>
    match f a with
    | Except.error e => Except.error e
    | Except.ok b =>
      match mapE f as with
      | Except.error e => Except.error e
      | Except.ok bs => Except.ok (b :: bs)

/-- Embedding of the per-column switch inside buildRowsForOrders
(sheets.js lines 206-260): builds one cell of one order's row. -/
def buildCellForOrder (order : Order) (column : Column) : Except String CellData :=
  match column.field with
  | "unitsOrdered" =>
    Except.ok
      { userEnteredValue := some (UserValue.numberValue order.unitsOrdered),
        userEnteredFormat :=
          some { numberFormat := some { type := ("NUMBER"), pattern := ("#,##0") } } }
  | "unitPrice" =>
    Except.ok
      { userEnteredValue := some (UserValue.numberValue order.unitPrice),
        userEnteredFormat :=
          some { numberFormat := some { type := ("CURRENCY"), pattern := ("\"$\"#,##0.00") } } }
  | "status" =>
    Except.ok
      { userEnteredValue := some (UserValue.stringValue order.status),
        dataValidation := some
          { condition :=
              { type := ("ONE_OF_LIST"),
                values := [ { userEnteredValue := ("PENDING") },
                            { userEnteredValue := ("SHIPPED") },
                            { userEnteredValue := ("DELIVERED") } ] },
            strict := true,
            showCustomUi := true } }
  | f =>
    match jsToString (Order.getField order f) with
    | Except.error e => Except.error e
    | Except.ok s =>
      Except.ok { userEnteredValue := some (UserValue.stringValue (JSVal.str s)) }

/-- One order's RowData: the COLUMNS map of buildRowsForOrders. -/
def buildRowForOrder (order : Order) : Except String RowData :=
  match mapE (buildCellForOrder order) COLUMNS with
  | Except.error e => Except.error e
  | Except.ok cells => Except.ok { values := cells }

/-- Embedding of buildRowsForOrders (sheets.js lines 204-265). -/
def buildRowsForOrders (orders : List Order) : Except String (List RowData) :=
  mapE buildRowForOrder orders

/-- Embedding of the request list built by SheetsHelper.prototype.sync
(sheets.js lines 157-190): the grid resize followed by the cell update.
A thrown exception from buildRowsForOrders aborts the whole call before
any request is sent, which the Except error models. -/
def buildSyncRequests (sheetId : Int) (orders : List Order) :
    Except String (List Request) :=
  match buildRowsForOrders orders with
  | Except.error e => Except.error e
  | Except.ok rows =>
    Except.ok
      [ Request.updateSheetProperties
          { properties :=
              { sheetId := some sheetId,
                gridProperties := some
                  { rowCount := some (orders.length + 1),
                    columnCount := some COLUMNS.length } },
            fields := ("gridProperties(rowCount,columnCount)") },
        Request.updateCells
          { start := { sheetId := sheetId, rowIndex := 1, columnIndex := 0 },
            rows := rows,
            fields := ("*") } ]

/-- The column object getColumnForField returns: field, header and the
index key that the JS code attaches to the matched column. -/
structure ColumnLookup where
  field : String
  header : String
  index : Option Nat
deriving DecidableEq

/-- Embedding of getColumnForField (sheets.js lines 393-401): a reduce
without an initial value, so the accumulator starts as COLUMNS[0] and the
callback runs from index 1.  A matched column comes back with its index
attached; on a fresh call the fallback COLUMNS[0] object carries no index
(the JS caching mutation is a side effect the embedding need not keep, per
the program's own behaviour on the fields it actually looks up). -/
def getColumnForField (field : String) : ColumnLookup :=
  match COLUMNS.enum with
  | [] => { field := (""), header := (""), index := none }
  | first :: rest =>
    rest.foldl
      (fun result ic =>
        if ic.2.field == field then
          { field := ic.2.field, header := ic.2.header, index := some ic.1 }
        else result)
      { field := first.2.field, header := first.2.header, index := none }

/-- Embedding of buildPivotTableRequest (sheets.js lines 273-316). -/
def buildPivotTableRequest (sourceSheetId targetSheetId : Int) : Request :=
  Request.updateCells {
    start := { sheetId := targetSheetId, rowIndex := 0, columnIndex := 0 },
    rows :=
      [ { values :=
            [ { pivotTable :=
                  some { source :=
                           { sheetId := sourceSheetId,
                             startRowIndex := some 0,
                             startColumnIndex := some 0,
                             endColumnIndex := some COLUMNS.length },
                         rows :=
                           [ { sourceColumnOffset := (getColumnForField ("productCode")).index,
                               showTotals := false,
                               sortOrder := ("ASCENDING") } ],
                         values :=
                           [ { summarizeFunction := ("SUM"),
                               sourceColumnOffset := (getColumnForField ("unitsOrdered")).index },
                             { summarizeFunction := ("SUM"),
                               name := some ("Revenue"),
                               formula :=
                                 some (("=\x27") ++ (getColumnForField ("unitsOrdered")).header
                                   ++ ("\x27 * \x27") ++ (getColumnForField ("unitPrice")).header
                                   ++ ("\x27")) } ] } } ] } ],
    fields := ("*") }

/-- Embedding of buildFormatPivotTableRequest (sheets.js lines 323-335). -/
def buildFormatPivotTableRequest (sheetId : Int) : Request :=
  Request.repeatCell {
    range := { sheetId := sheetId, startRowIndex := some 1, startColumnIndex := some 2 },
    cell := { userEnteredFormat :=
                some { numberFormat :=
                         some { type := ("CURRENCY"), pattern := ("\"$\"#,##0.00") } } },
    fields := ("userEnteredFormat.numberFormat") }

/-- Embedding of buildAddChartRequest (sheets.js lines 342-385). -/
def buildAddChartRequest (sheetId : Int) : Request :=
  Request.addChart {
    chart :=
      { spec :=
          { title := ("Revenue per Product"),
            basicChart :=
              { chartType := ("BAR"),
                legendPosition := ("RIGHT_LEGEND"),
                domains := [ { domain := { sourceRange := { sources :=
                  [ { sheetId := sheetId, startRowIndex := some 0,
                      startColumnIndex := some 0, endColumnIndex := some 1 } ] } } } ],
                series := [ { series := { sourceRange := { sources :=
                  [ { sheetId := sheetId, startRowIndex := some 0,
                      startColumnIndex := some 2, endColumnIndex := some 3 } ] } } } ] } },
        position := { overlayPosition :=
          { anchorCell := { sheetId := sheetId, rowIndex := 0, columnIndex := 3 },
            widthPixels := 600, heightPixels := 400 } } } }

/-- Properties of the whole spreadsheet in the creation request. -/
structure SpreadsheetProperties where
  title : String
deriving DecidableEq

/-- One sheet of the creation request. -/
structure SheetSpec where
  properties : SheetProperties
deriving DecidableEq

/-- spreadsheets.create request resource. -/
structure CreateSpreadsheetRequest where
  properties : SpreadsheetProperties
  sheets : List SheetSpec
deriving DecidableEq

/-- Embedding of the request literal of SheetsHelper.prototype.createSpreadsheet
(sheets.js lines 46-72): a Data sheet with six columns and a frozen header
row, and a Pivot sheet with gridlines hidden.  The title is the only input. -/
def buildCreateRequest (title : String) : CreateSpreadsheetRequest :=
  { properties := { title := title },
    sheets :=
      [ { properties :=
            { title := some ("Data"),
              gridProperties := some { columnCount := some 6, frozenRowCount := some 1 } } },
        { properties :=
            { title := some ("Pivot"),
              gridProperties := some { hideGridlines := some true } } } ] }

/-- The first observable action of the createSpreadsheet operation: either
a caller-input error surfaced before any network traffic, or the create
RPC being issued with a request payload. -/
inductive CreateStep where
  | rpcCreate (req : CreateSpreadsheetRequest)
  | callerError (e : String)
deriving DecidableEq

/-- True exactly on the caller-error outcome. -/
def CreateStep.isCallerError : CreateStep → Bool
  | CreateStep.callerError _ => true
  | _ => false

/-- Embedding of the control flow of createSpreadsheet up to its first
effect (sheets.js lines 44-73): the code performs no validation of the
title; it builds the request literal and immediately invokes
service.spreadsheets.create with it. -/
def createSpreadsheetFirstStep (title : String) : CreateStep :=
  CreateStep.rpcCreate (buildCreateRequest title)

/-- The follow-up batchUpdate request list issued after a successful
create (sheets.js lines 78-95): header row, pivot table, pivot formatting
and chart. -/
def createSpreadsheetFollowUp (dataSheetId pivotSheetId : Int) : List Request :=
  [ buildHeaderRowRequest dataSheetId ] ++
    [ buildPivotTableRequest dataSheetId pivotSheetId,
      buildFormatPivotTableRequest pivotSheetId,
      buildAddChartRequest pivotSheetId ]

/-- A successful throwing map yields a list of the same length. -/
theorem mapE_ok_length {α β : Type} (f : α → Except String β) :
    ∀ (l : List α) (l' : List β), mapE f l = Except.ok l' → l'.length = l.length := by
  intro l
  induction l with
  | nil =>
    intro l' h
    simp only [mapE] at h
    cases h
    rfl
  | cons a as ih =>
    intro l' h
    simp only [mapE] at h
    cases hfa : f a <;> rw [hfa] at h
    · exact absurd h (by simp)
    · cases hrest : mapE f as <;> rw [hrest] at h
      · exact absurd h (by simp)
      · cases h
        simp [ih _ hrest]

/-- A successful throwing map sends the i-th input to the i-th output. -/
theorem mapE_ok_get {α β : Type} (f : α → Except String β) :
    ∀ (l : List α) (l' : List β), mapE f l = Except.ok l' →
      ∀ (i : Nat) (a : α), l[i]? = some a →
        ∃ b, l'[i]? = some b ∧ f a = Except.ok b := by
  intro l
  induction l with
  | nil =>
    intro l' _ i a ha
    simp at ha
  | cons x xs ih =>
    intro l' h i a ha
    simp only [mapE] at h
    cases hfx : f x <;> rw [hfx] at h
    · exact absurd h (by simp)
    · cases hrest : mapE f xs <;> rw [hrest] at h
      · exact absurd h (by simp)
      · cases h
        cases i with
        | zero =>
          simp at ha
          exact ⟨_, by simp, ha ▸ hfx⟩
        | succ j =>
          simp at ha
          obtain ⟨b, hb, hfb⟩ := ih _ hrest j a ha
          exact ⟨b, by simpa using hb, hfb⟩

/-- If some element of the list makes the callback throw, the whole
throwing map throws. -/
theorem mapE_error_of_mem {α β : Type} (f : α → Except String β) :
    ∀ (l : List α) (a : α), a ∈ l → (∃ e, f a = Except.error e) →
      ∃ e, mapE f l = Except.error e := by
  intro l
  induction l with
  | nil =>
    intro a ha _
    simp at ha
  | cons x xs ih =>
    intro a ha herr
    rcases List.mem_cons.mp ha with hax | hmem
    · cases hax
      obtain ⟨e, he⟩ := herr
      exact ⟨e, by simp [mapE, he]⟩
    · cases hfx : f x with
      | error e0 => exact ⟨e0, by simp [mapE, hfx]⟩
      | ok b =>
        obtain ⟨e, he⟩ := ih a hmem herr
        exact ⟨e, by simp [mapE, hfx, he]⟩

/-- The order of the spec's worked example. -/
def exampleOrder : Order :=
  { id := JSVal.num 1,
    customerName := JSVal.str ("A"),
    productCode := JSVal.str ("X1"),
    unitsOrdered := JSVal.num 3,
    unitPrice := JSVal.num 9.5,
    status := JSVal.str ("PENDING") }

/-- The data validation rule every status cell carries. -/
def statusValidation : DataValidation :=
  { condition :=
      { type := ("ONE_OF_LIST"),
        values := [ { userEnteredValue := ("PENDING") },
                    { userEnteredValue := ("SHIPPED") },
                    { userEnteredValue := ("DELIVERED") } ] },
    strict := true,
    showCustomUi := true }

/-- A plain string cell (the default branch of the column switch). -/
def plainStringCell (s : String) : CellData :=
  { userEnteredValue := some (UserValue.stringValue (JSVal.str s)) }

/-- The unitsOrdered cell of an order with the given raw value. -/
def unitsOrderedCell (v : JSVal) : CellData :=
  { userEnteredValue := some (UserValue.numberValue v),
    userEnteredFormat :=
      some { numberFormat := some { type := ("NUMBER"), pattern := ("#,##0") } } }

/-- The unitPrice cell of an order with the given raw value. -/
def unitPriceCell (v : JSVal) : CellData :=
  { userEnteredValue := some (UserValue.numberValue v),
    userEnteredFormat :=
      some { numberFormat := some { type := ("CURRENCY"), pattern := ("\"$\"#,##0.00") } } }

/-- The status cell of an order with the given raw value. -/
def statusCell (v : JSVal) : CellData :=
  { userEnteredValue := some (UserValue.stringValue v),
    dataValidation := some statusValidation }

/-- The row the builder produces for the example order. -/
def exampleRow : RowData :=
  { values :=
      [ plainStringCell ("1"),
        plainStringCell ("A"),
        plainStringCell ("X1"),
        unitsOrderedCell (JSVal.num 3),
        unitPriceCell (JSVal.num 9.5),
        statusCell (JSVal.str ("PENDING")) ] }

/-- A bold header cell with the given label. -/
def headerCell (h : String) : CellData :=
  { userEnteredValue := some (UserValue.stringValue (JSVal.str h)),
    userEnteredFormat := some { textFormat := some { bold := true } } }

/-- Claim C6: the header-row request always writes, at row 0 starting at
column 0 of the given sheet, a single row of 6 bold string cells whose
values are, in the exact literal order: ID, Customer Name, Product Code,
Units Ordered, Unit Price, Status. -/
theorem header_request_spec (sheetId : Int) :
    buildHeaderRowRequest sheetId = Request.updateCells
      { start := { sheetId := sheetId, rowIndex := 0, columnIndex := 0 },
        rows :=
          [ { values :=
                [ headerCell ("ID"),
                  headerCell ("Customer Name"),
                  headerCell ("Product Code"),
                  headerCell ("Units Ordered"),
                  headerCell ("Unit Price"),
                  headerCell ("Status") ] } ],
        fields := ("userEnteredValue,userEnteredFormat.textFormat.bold") } := rfl

/-- Claim C8: building the spreadsheet-creation request is deterministic:
it depends only on the title, with the fixed Data and Pivot sheet layout
and no hidden timestamp or random state, so equal titles give structurally
identical requests. -/
theorem create_request_deterministic (t1 t2 : String) (h : t1 = t2) :
    buildCreateRequest t1 = buildCreateRequest t2 ∧
    buildCreateRequest t1 =
      { properties := { title := t1 },
        sheets :=
          [ { properties :=
                { title := some ("Data"),
                  gridProperties := some { columnCount := some 6, frozenRowCount := some 1 } } },
            { properties :=
                { title := some ("Pivot"),
                  gridProperties := some { hideGridlines := some true } } } ] } :=
  ⟨by rw [h], rfl⟩

/-- Witness for C8 at the concrete title Orders. -/
theorem create_request_deterministic_witness :
    buildCreateRequest ("Orders") = buildCreateRequest ("Orders") ∧
    buildCreateRequest ("Orders") =
      { properties := { title := ("Orders") },
        sheets :=
          [ { properties :=
                { title := some ("Data"),
                  gridProperties := some { columnCount := some 6, frozenRowCount := some 1 } } },
            { properties :=
                { title := some ("Pivot"),
                  gridProperties := some { hideGridlines := some true } } } ] } :=
  create_request_deterministic ("Orders") ("Orders") rfl

/-- Counterexample to claim C9: called with the empty title, the
createSpreadsheet operation does not surface a caller-input error; its
first observable action is the create RPC, issued with the empty title in
the request payload. -/
theorem empty_title_no_validation_cex :
    createSpreadsheetFirstStep ("") = CreateStep.rpcCreate (buildCreateRequest ("")) ∧
    (createSpreadsheetFirstStep ("")).isCallerError = false :=
  ⟨rfl, rfl⟩

/-- Claim C9 (amended): the create-spreadsheet operation performs no
title validation at all: for every title, the empty one included, it
builds the creation request from the title unchanged and issues the
create RPC as its first action; no caller-input error is ever surfaced
before the network call. -/
theorem create_no_title_validation (title : String) :
    createSpreadsheetFirstStep title = CreateStep.rpcCreate (buildCreateRequest title) ∧
    (createSpreadsheetFirstStep title).isCallerError = false :=
  ⟨rfl, rfl⟩

/-- Counterexample to claim C2: the unitPrice cell's currency pattern is
the 12-character string with literal double quotes around the dollar sign,
not the 9-character pattern the claim states. -/
theorem unit_price_pattern_cex :
    buildCellForOrder exampleOrder { field := ("unitPrice"), header := ("Unit Price") } =
      Except.ok (unitPriceCell (JSVal.num 9.5)) ∧
    (unitPriceCell (JSVal.num 9.5)).userEnteredFormat =
      some { numberFormat := some { type := ("CURRENCY"), pattern := ("\"$\"#,##0.00") } } ∧
    ("\"$\"#,##0.00") ≠ ("$#,##0.00") :=
  ⟨rfl, rfl, by decide⟩

/-- Claim C2 (amended): for every order, the unitPrice cell carries a
CURRENCY number format whose pattern is the exact string consisting of a
double quote, a dollar sign, a double quote, then the characters of the
pattern 0x23 comma 0x23 0x23 0 period 0 0 (the dollar sign is wrapped in
literal double-quote characters), and the unitsOrdered cell carries a
NUMBER format with the exact pattern string of 0x23 comma 0x23 0x23 0. -/
theorem number_format_patterns (o : Order) :
    buildCellForOrder o { field := ("unitPrice"), header := ("Unit Price") } =
      Except.ok (unitPriceCell o.unitPrice) ∧
    (unitPriceCell o.unitPrice).userEnteredFormat =
      some { numberFormat := some { type := ("CURRENCY"), pattern := ("\"$\"#,##0.00") } } ∧
    buildCellForOrder o { field := ("unitsOrdered"), header := ("Units Ordered") } =
      Except.ok (unitsOrderedCell o.unitsOrdered) ∧
    (unitsOrderedCell o.unitsOrdered).userEnteredFormat =
      some { numberFormat := some { type := ("NUMBER"), pattern := ("#,##0") } } :=
  ⟨rfl, rfl, rfl, rfl⟩

/-- Claim C4: for every order, whatever its status value, the status cell
carries a strict ONE_OF_LIST validation allowing exactly PENDING, SHIPPED
and DELIVERED, the cell's value slot holds the order's status (the string
itself when the status is a string), and the builder accepts every status
value without rejecting it. -/
theorem status_cell_validation (o : Order) :
    buildCellForOrder o { field := ("status"), header := ("Status") } =
      Except.ok (statusCell o.status) ∧
    (statusCell o.status).dataValidation = some statusValidation ∧
    statusValidation.condition.type = ("ONE_OF_LIST") ∧
    statusValidation.condition.values.map ConditionValue.userEnteredValue =
      [("PENDING"), ("SHIPPED"), ("DELIVERED")] ∧
    statusValidation.strict = true ∧
    (∀ s : String, o.status = JSVal.str s →
      (statusCell o.status).userEnteredValue =
        some (UserValue.stringValue (JSVal.str s))) := by
  refine ⟨rfl, rfl, rfl, rfl, rfl, ?_⟩
  intro s hs
  simp [statusCell, hs]

/-- Witness for C4 at the example order, whose status is PENDING. -/
theorem status_cell_validation_witness :
    (statusCell exampleOrder.status).userEnteredValue =
      some (UserValue.stringValue (JSVal.str ("PENDING"))) :=
  (status_cell_validation exampleOrder).2.2.2.2.2 ("PENDING") rfl

/-- Claim C5: the pivot-table request groups rows by the productCode
column (offset 2) with ascending sort, sums the unitsOrdered column
(offset 3), and adds a computed Revenue column whose formula multiplies
the header-labeled Units Ordered and Unit Price columns, with the source
range starting at row 0, column 0 and covering all 6 data columns. -/
theorem pivot_request_spec (dataSheetId pivotSheetId : Int) :
    buildPivotTableRequest dataSheetId pivotSheetId = Request.updateCells
      { start := { sheetId := pivotSheetId, rowIndex := 0, columnIndex := 0 },
        rows :=
          [ { values :=
                [ { pivotTable :=
                      some { source :=
                               { sheetId := dataSheetId,
                                 startRowIndex := some 0,
                                 startColumnIndex := some 0,
                                 endColumnIndex := some 6 },
                             rows :=
                               [ { sourceColumnOffset := some 2,
                                   showTotals := false,
                                   sortOrder := ("ASCENDING") } ],
                             values :=
                               [ { summarizeFunction := ("SUM"),
                                   sourceColumnOffset := some 3 },
                                 { summarizeFunction := ("SUM"),
                                   name := some ("Revenue"),
                                   formula := some ("=\x27Units Ordered\x27 * \x27Unit Price\x27") } ] } } ] } ],
        fields := ("*") }
    ∧ COLUMNS[2]? = some { field := ("productCode"), header := ("Product Code") }
    ∧ COLUMNS[3]? = some { field := ("unitsOrdered"), header := ("Units Ordered") }
    ∧ COLUMNS[4]? = some { field := ("unitPrice"), header := ("Unit Price") } :=
  ⟨rfl, rfl, rfl, rfl⟩

/-- Claim C1: for every order list whose rows build successfully, the sync
batch holds a grid resize to orders.length + 1 rows and 6 columns and a
cell update starting at row 1 whose rows are exactly one 6-cell row per
order, the cells produced column by column from the fixed column
specification in its order id, customerName, productCode, unitsOrdered,
unitPrice, status. -/
theorem sync_batch_spec (sheetId : Int) (orders : List Order) (rs : List RowData)
    (h : buildRowsForOrders orders = Except.ok rs) :
    buildSyncRequests sheetId orders = Except.ok
      [ Request.updateSheetProperties
          { properties :=
              { sheetId := some sheetId,
                gridProperties :=
                  some { rowCount := some (orders.length + 1), columnCount := some 6 } },
            fields := ("gridProperties(rowCount,columnCount)") },
        Request.updateCells
          { start := { sheetId := sheetId, rowIndex := 1, columnIndex := 0 },
            rows := rs,
            fields := ("*") } ]
    ∧ rs.length = orders.length
    ∧ (∀ (i : Nat) (o : Order), orders[i]? = some o →
        ∃ cells, rs[i]? = some { values := cells } ∧ cells.length = 6 ∧
          mapE (buildCellForOrder o) COLUMNS = Except.ok cells)
    ∧ COLUMNS.map Column.field =
        [("id"), ("customerName"), ("productCode"), ("unitsOrdered"), ("unitPrice"), ("status")] := by
  refine ⟨?_, mapE_ok_length _ _ _ h, ?_, rfl⟩
  · unfold buildSyncRequests
    rw [h]
    rfl
  · intro i o hio
    obtain ⟨b, hb, hfo⟩ := mapE_ok_get _ _ _ h i o hio
    unfold buildRowForOrder at hfo
    cases hm : mapE (buildCellForOrder o) COLUMNS <;> rw [hm] at hfo
    · exact absurd hfo (by simp)
    · cases hfo
      exact ⟨_, hb, mapE_ok_length _ _ _ hm, rfl⟩

/-- Witness for C1: the row list of the single example order has length 1
and its one row holds 6 cells built in column order. -/
theorem sync_batch_spec_witness :
    [exampleRow].length = [exampleOrder].length ∧
    buildSyncRequests 0 [exampleOrder] = Except.ok
      [ Request.updateSheetProperties
          { properties :=
              { sheetId := some 0,
                gridProperties := some { rowCount := some 2, columnCount := some 6 } },
            fields := ("gridProperties(rowCount,columnCount)") },
        Request.updateCells
          { start := { sheetId := 0, rowIndex := 1, columnIndex := 0 },
            rows := [exampleRow],
            fields := ("*") } ] :=
  ⟨(sync_batch_spec 0 [exampleOrder] [exampleRow] rfl).2.1,
   (sync_batch_spec 0 [exampleOrder] [exampleRow] rfl).1⟩

/-- Claim C10: whenever the sync operation sends a batch at all, that
batch holds exactly two sub-requests, the updateSheetProperties grid
resize strictly before the updateCells row write. -/
theorem sync_two_requests_ordered (sheetId : Int) (orders : List Order) (rs : List RowData)
    (h : buildRowsForOrders orders = Except.ok rs) :
    ∃ r1 r2, buildSyncRequests sheetId orders = Except.ok [r1, r2] ∧
      r1.isUpdateSheetProperties = true ∧ r2.isUpdateCells = true := by
  unfold buildSyncRequests
  rw [h]
  exact ⟨_, _, rfl, rfl, rfl⟩

/-- Witness for C10 at the example order list. -/
theorem sync_two_requests_ordered_witness :
    ∃ r1 r2, buildSyncRequests 0 [exampleOrder] = Except.ok [r1, r2] ∧
      r1.isUpdateSheetProperties = true ∧ r2.isUpdateCells = true :=
  sync_two_requests_ordered 0 [exampleOrder] [exampleRow] rfl

/-- Claim C7: for the single example order the sync batch resizes to 2
rows and 6 columns and writes one row whose six values are the strings 1,
A, X1, the numbers 3 and 9.5, and the string PENDING; and in general
every field other than unitsOrdered, unitPrice and status is written as a
plain string cell holding the field's textual representation. -/
theorem sync_example_values (sheetId : Int) :
    buildSyncRequests sheetId [exampleOrder] = Except.ok
      [ Request.updateSheetProperties
          { properties :=
              { sheetId := some sheetId,
                gridProperties := some { rowCount := some 2, columnCount := some 6 } },
            fields := ("gridProperties(rowCount,columnCount)") },
        Request.updateCells
          { start := { sheetId := sheetId, rowIndex := 1, columnIndex := 0 },
            rows := [exampleRow],
            fields := ("*") } ]
    ∧ exampleRow.values.map CellData.userEnteredValue =
        [ some (UserValue.stringValue (JSVal.str ("1"))),
          some (UserValue.stringValue (JSVal.str ("A"))),
          some (UserValue.stringValue (JSVal.str ("X1"))),
          some (UserValue.numberValue (JSVal.num 3)),
          some (UserValue.numberValue (JSVal.num 9.5)),
          some (UserValue.stringValue (JSVal.str ("PENDING"))) ]
    ∧ (∀ o : Order,
        buildCellForOrder o { field := ("id"), header := ("ID") } =
          Except.map plainStringCell (jsToString o.id)
      ∧ buildCellForOrder o { field := ("customerName"), header := ("Customer Name") } =
          Except.map plainStringCell (jsToString o.customerName)
      ∧ buildCellForOrder o { field := ("productCode"), header := ("Product Code") } =
          Except.map plainStringCell (jsToString o.productCode)) := by
  refine ⟨rfl, rfl, fun o => ⟨?_, ?_, ?_⟩⟩
  · cases h : o.id <;>
      simp [buildCellForOrder, Order.getField, jsToString, h, Except.map, plainStringCell]
  · cases h : o.customerName <;>
      simp [buildCellForOrder, Order.getField, jsToString, h, Except.map, plainStringCell]
  · cases h : o.productCode <;>
      simp [buildCellForOrder, Order.getField, jsToString, h, Except.map, plainStringCell]

/-- The example order with its status field missing. -/
def orderMissingStatus : Order := { exampleOrder with status := JSVal.undefined }

/-- The example order with its id field missing. -/
def orderMissingId : Order := { exampleOrder with id := JSVal.undefined }

/-- Counterexample to claim C3: for an order missing the required status
field the row builder does not fail at all; it succeeds and writes a
status cell whose value slot holds undefined. -/
theorem missing_status_no_failure_cex :
    buildRowsForOrders [orderMissingStatus] = Except.ok
      [ { values :=
            [ plainStringCell ("1"),
              plainStringCell ("A"),
              plainStringCell ("X1"),
              unitsOrderedCell (JSVal.num 3),
              unitPriceCell (JSVal.num 9.5),
              statusCell JSVal.undefined ] } ] := rfl

/-- An order missing id, customerName or productCode makes the row
builder throw the stringification TypeError. -/
theorem buildRowForOrder_error_of_missing (o : Order)
    (h : o.id = JSVal.undefined ∨ o.customerName = JSVal.undefined ∨
      o.productCode = JSVal.undefined) :
    ∃ e, buildRowForOrder o = Except.error e := by
  obtain ⟨oid, ocn, opc, ouo, oup, ost⟩ := o
  refine ⟨("TypeError: cannot read toString of undefined"), ?_⟩
  rcases h with h | h | h
  · cases oid <;> first | rfl | exact (nomatch h)
  · cases ocn <;> first | (cases oid <;> rfl) | exact (nomatch h)
  · cases opc <;> first | (cases oid <;> cases ocn <;> rfl) | exact (nomatch h)

/-- Claim C3 (amended): for an order missing id, customerName or
productCode the row builder propagates the stringification TypeError (no
MissingFieldError type exists in the code); for an order missing
unitsOrdered, unitPrice or status the builder does not fail: it writes
the cell with the order's raw field value, undefined included, so it
never substitutes a default value in any case. -/
theorem missing_field_behaviour :
    (∀ (orders : List Order) (o : Order), o ∈ orders →
        (o.id = JSVal.undefined ∨ o.customerName = JSVal.undefined ∨
          o.productCode = JSVal.undefined) →
        ∃ e, buildRowsForOrders orders = Except.error e)
    ∧ (∀ o : Order,
        buildCellForOrder o { field := ("unitsOrdered"), header := ("Units Ordered") } =
          Except.ok (unitsOrderedCell o.unitsOrdered)
      ∧ buildCellForOrder o { field := ("unitPrice"), header := ("Unit Price") } =
          Except.ok (unitPriceCell o.unitPrice)
      ∧ buildCellForOrder o { field := ("status"), header := ("Status") } =
          Except.ok (statusCell o.status)) := by
  constructor
  · intro orders o hmem hmiss
    exact mapE_error_of_mem _ orders o hmem (buildRowForOrder_error_of_missing o hmiss)
  · intro o
    exact ⟨rfl, rfl, rfl⟩

/-- Witness for C3 (amended): the sync row builder throws on a concrete
order list whose order is missing its id. -/
theorem missing_field_behaviour_witness :
    ∃ e, buildRowsForOrders [orderMissingId] = Except.error e :=
  missing_field_behaviour.1 [orderMissingId] orderMissingId
    (List.mem_singleton.mpr rfl) (Or.inl rfl)
